import Mathlib

/-!
Shallow embedding of `src/freeboard.py` (USEPA/play-freeboard), a CLI tool
that scrapes NOAA's precipitation frequency data server (PFDS) and indexes
the scraped table by storm-duration and average-return-interval (ARI) labels.

Conventions used to translate the Python source:
* machine floats (coordinates, bounds) are modelled as `ℚ`;
* Python lists are Lean `List`s; the two label dictionaries are association
  lists kept in their literal order;
* a Python `KeyError` raised by the label dictionaries is modelled as
  `IndexErr.unknownLabel`, an `IndexError` raised by list indexing as
  `IndexErr.tableShape` (these realise the spec's UnknownLabelError and
  TableShapeError);
* the behaviour of the library pieces the code calls (`re.search`,
  `ast.literal_eval`, `requests.get`, click's `FloatRange`) is modelled from
  their documented semantics, restricted to the grammar relevant here
  (single-line bodies, nested numeric array literals without exponents).
-/

namespace Freeboard

/-! ### Constants from the source (freeboard.py lines 19-54, 119) -/

/-- CONUS bounding box, freeboard.py line 21. -/
def conus_north : ℚ := 49
/-- CONUS bounding box, freeboard.py line 22. -/
def conus_south : ℚ := 24.5
/-- CONUS bounding box, freeboard.py line 23. -/
def conus_east : ℚ := -66.9
/-- CONUS bounding box, freeboard.py line 24. -/
def conus_west : ℚ := -125

/-- The storm durations offered on the command line, freeboard.py lines 28-40. -/
def duration_choices : List String :=
  ["0.5-day", "1-day", "2-day", "3-day", "4-day", "7-day",
   "10-day", "20-day", "30-day", "45-day", "60-day"]

/-- The ARIs offered on the command line, freeboard.py lines 43-54. -/
def ari_choices : List String :=
  ["1-yr", "2-yr", "5-yr", "10-yr", "25-yr",
   "50-yr", "100-yr", "200-yr", "500-yr", "1000-yr"]

/-- Base URL of the data server, freeboard.py line 119. -/
def pfds_url : String := "https://hdsc.nws.noaa.gov/cgi-bin/hdsc/new/cgi_readH5.py"

/-! ### Table indexer (`get_design_storm_event`, freeboard.py lines 154-195) -/

/-- The duration-to-row dictionary, freeboard.py lines 157-177. -/
def duration_rows : List (String × Nat) :=
  [("5-min", 0), ("10-min", 1), ("15-min", 2), ("30-min", 3), ("60-min", 4),
   ("2-hr", 5), ("3-hr", 6), ("6-hr", 7),
   ("0.5-day", 8), ("1-day", 9), ("2-day", 10), ("3-day", 11), ("4-day", 12),
   ("7-day", 13), ("10-day", 14), ("20-day", 15), ("30-day", 16),
   ("45-day", 17), ("60-day", 18)]

/-- The ARI-to-column dictionary, freeboard.py lines 180-191. -/
def ari_cols : List (String × Nat) :=
  [("1-yr", 0), ("2-yr", 1), ("5-yr", 2), ("10-yr", 3), ("25-yr", 4),
   ("50-yr", 5), ("100-yr", 6), ("200-yr", 7), ("500-yr", 8), ("1000-yr", 9)]

/-- Typed rendering of the exceptions the indexer can raise:
`unknownLabel` is Python's `KeyError` from the label dictionaries,
`tableShape` is Python's `IndexError` from list indexing. -/
inductive IndexErr where
  | unknownLabel (label : String)
  | tableShape (idx : Nat)
deriving DecidableEq

/-- Python dictionary subscription `m[label]`: the value, or `KeyError`. -/
def lookupLabel (m : List (String × Nat)) (label : String) : Except IndexErr Nat :=
  match m.lookup label with
  | some i => Except.ok i
  | none => Except.error (IndexErr.unknownLabel label)

/-- Python list subscription `l[i]` with a non-negative index:
the element, or `IndexError`. -/
def index {α : Type} (l : List α) (i : Nat) : Except IndexErr α :=
  match l.get? i with
  | some v => Except.ok v
  | none => Except.error (IndexErr.tableShape i)

/-- freeboard.py lines 154-195.  The body is line 193,
`precip_amounts[duration_rows[duration]][ari_cols[ari]]`, in Python's
evaluation order: duration lookup, row indexing, ARI lookup, column
indexing. -/
def get_design_storm_event {α : Type} (precip_amounts : List (List α))
    (ari duration : String) : Except IndexErr α := do
  let r ← lookupLabel duration_rows duration
  let row ← index precip_amounts r
  let c ← lookupLabel ari_cols ari
  index row c

/-! ### Helper lemmas about the indexer -/

theorem ok_bind {α β : Type} (a : α) (f : α → Except IndexErr β) :
    (Except.ok a >>= f) = f a := rfl

theorem error_bind {α β : Type} (e : IndexErr) (f : α → Except IndexErr β) :
    ((Except.error e : Except IndexErr α) >>= f) = Except.error e := rfl

theorem lookupLabel_ok {m : List (String × Nat)} {label : String} {i : Nat}
    (h : m.lookup label = some i) : lookupLabel m label = Except.ok i := by
  simp [lookupLabel, h]

theorem lookupLabel_err {m : List (String × Nat)} {label : String}
    (h : m.lookup label = none) :
    lookupLabel m label = Except.error (IndexErr.unknownLabel label) := by
  simp [lookupLabel, h]

theorem index_ok {α : Type} {l : List α} {i : Nat} {v : α}
    (h : l.get? i = some v) : index l i = Except.ok v := by
  unfold index
  rw [h]

theorem index_err {α : Type} {l : List α} {i : Nat}
    (h : l.get? i = none) : index l i = Except.error (IndexErr.tableShape i) := by
  unfold index
  rw [h]

/-- Shared success lemma: when both labels are known and both indices are in
range, the selection returns the table entry. -/
theorem select_ok {α : Type} (table : List (List α)) (a d : String)
    (r c : Nat) (row : List α) (v : α)
    (hd : duration_rows.lookup d = some r) (ha : ari_cols.lookup a = some c)
    (hrow : table.get? r = some row) (hv : row.get? c = some v) :
    get_design_storm_event table a d = Except.ok v := by
  unfold get_design_storm_event
  rw [lookupLabel_ok hd, ok_bind, index_ok hrow, ok_bind,
    lookupLabel_ok ha, ok_bind, index_ok hv]

/-! ### Scraper (`scrape_precip_data`, freeboard.py lines 114-151)

The line `re.search(r"quantiles = (.*);", pfds_response.text).group(1)`
is modelled by `searchQuantiles`: the regex engine scans for the leftmost
start position where the whole pattern matches; `.` never matches a
newline; the greedy `(.*)` makes the final `;` the last semicolon on the
matched line.  `ast.literal_eval` is modelled by `parseLiteral`, a strict
parser of nested numeric array literals (the grammar of PFDS quantiles
data: brackets, commas, optional sign, decimal digits with an optional
fractional part), which fails on any trailing text. -/

/-- Does `pat` occur literally at the head of `l`? -/
def matchesAt : List Char → List Char → Bool
  | [], _ => true
  | _ :: _, [] => false
  | p :: ps, c :: cs => p == c && matchesAt ps cs

/-- The literal part of the regex, `quantiles = `. -/
def quantMarker : List Char := "quantiles = ".toList

/-- Given the text right after the marker, the greedy capture of `(.*);`:
everything up to the last `;` on the current line, or failure when the
line has no `;`. -/
def greedyGroup (l : List Char) : Option (List Char) :=
  let line := l.takeWhile (fun c => c ≠ '\n')
  match line.reverse.dropWhile (fun c => c ≠ ';') with
  | [] => none
  | _ :: rest => some rest.reverse

/-- `re.search(r"quantiles = (.*);", text)`: scan left to right for a start
position where the pattern matches, and return the greedy capture group. -/
def searchQuantiles : List Char → Option (List Char)
  | [] => none
  | c :: cs =>
    if matchesAt quantMarker (c :: cs) then
      match greedyGroup ((c :: cs).drop quantMarker.length) with
      | some g => some g
      | none => searchQuantiles cs
    else searchQuantiles cs

/-- A Python literal of the shape PFDS embeds: a number or a
(possibly nested) list of literals. -/
inductive PyLit where
  | num (q : ℚ)
  | list (elems : List PyLit)

/-- Skip the blank characters tolerated inside a single-line literal. -/
def skipSpaces (l : List Char) : List Char :=
  l.dropWhile (fun c => c = ' ' || c = '\t')

/-- Horner evaluation of a digit run. -/
def digitsVal (ds : List Char) : Nat :=
  ds.foldl (fun n c => 10 * n + (c.toNat - '0'.toNat)) 0

/-- A numeric literal: optional minus sign, digits with an optional dot,
at least one digit overall. -/
def parseNum (l : List Char) : Option (ℚ × List Char) :=
  let signSplit :=
    match l with
    | '-' :: r => (true, r)
    | _ => (false, l)
  let neg := signSplit.1
  let l1 := signSplit.2
  let ds := l1.takeWhile Char.isDigit
  let r1 := l1.dropWhile Char.isDigit
  let fracSplit :=
    match r1 with
    | '.' :: r2 => (r2.takeWhile Char.isDigit, r2.dropWhile Char.isDigit)
    | _ => ([], r1)
  let fs := fracSplit.1
  let r3 := fracSplit.2
  if ds.isEmpty && fs.isEmpty then none
  else
    let scale : Nat := 10 ^ fs.length
    let mag : ℚ := mkRat (Int.ofNat (digitsVal ds * scale + digitsVal fs)) scale
    some (if neg then -mag else mag, r3)

/-- Elements of a bracketed list after the first one: a `]` closes the
list, a `,` introduces the next element (parsed by `pv`). -/
def parseTail (pv : List Char → Option (PyLit × List Char)) :
    Nat → List Char → Option (List PyLit × List Char)
  | 0, _ => none
  | fuel + 1, l =>
    match skipSpaces l with
    | ']' :: r => some ([], r)
    | ',' :: r =>
      match pv r with
      | none => none
      | some (v, r2) =>
        match parseTail pv fuel r2 with
        | none => none
        | some (vs, r3) => some (v :: vs, r3)
    | _ => none

/-- One literal value: a bracketed list or a number. -/
def parseVal : Nat → List Char → Option (PyLit × List Char)
  | 0, _ => none
  | fuel + 1, l =>
    match skipSpaces l with
    | '[' :: rest =>
      match skipSpaces rest with
      | ']' :: r2 => some (PyLit.list [], r2)
      | rest2 =>
        match parseVal fuel rest2 with
        | none => none
        | some (v, r2) =>
          match parseTail (parseVal fuel) fuel r2 with
          | none => none
          | some (vs, r3) => some (PyLit.list (v :: vs), r3)
    | l2 =>
      match parseNum l2 with
      | none => none
      | some (q, r) => some (PyLit.num q, r)

/-- `ast.literal_eval` on the captured text: the whole string must be one
literal, so trailing characters are a parse error. -/
def parseLiteral (l : List Char) : Option PyLit :=
  match parseVal (l.length + 2) l with
  | none => none
  | some (v, r) => if (skipSpaces r).isEmpty then some v else none

/-- The unhandled Python exceptions the scraper can die with:
`nameError` is the `UnboundLocalError` on `pfds_response` after a failed
request, `attributeError` is `.group(1)` on the `None` that `re.search`
returns when the pattern is absent, `valueError` is `ast.literal_eval`
rejecting the captured text. -/
inductive CrashKind where
  | nameError
  | attributeError
  | valueError
deriving DecidableEq

/-- What an invocation of the scraper produces after its HTTP call:
the parsed `quantiles` literal, or an unhandled exception. -/
inductive ScrapeResult where
  | table (v : PyLit)
  | crash (k : CrashKind)

/-- The outcome of `requests.get` + `raise_for_status` (freeboard.py lines
137-145): a success body, a non-2xx status whose error body is still held
by `pfds_response`, or a `RequestException` (connection failure / timeout)
raised before `pfds_response` is ever bound. -/
inductive HttpOutcome where
  | success (body : String)
  | statusError (code : Nat) (body : String)
  | requestFailure

/-- freeboard.py lines 147-151: regex extraction then literal parsing of a
response body. -/
def parseStage (body : String) : ScrapeResult :=
  match searchQuantiles body.toList with
  | none => ScrapeResult.crash CrashKind.attributeError
  | some g =>
    match parseLiteral g with
    | none => ScrapeResult.crash CrashKind.valueError
    | some v => ScrapeResult.table v

/-- freeboard.py lines 114-151, after the HTTP call resolved to `outcome`.
Both `except` arms only print and fall through: a `RequestException`
leaves `pfds_response` unbound so line 149 dies with `UnboundLocalError`,
while an `HTTPError` (non-2xx status) leaves the error response bound and
the code parses the error body as if the request had succeeded. -/
def scrape_precip_data (outcome : HttpOutcome) : ScrapeResult :=
  match outcome with
  | HttpOutcome.requestFailure => ScrapeResult.crash CrashKind.nameError
  | HttpOutcome.statusError _ body => parseStage body
  | HttpOutcome.success body => parseStage body

/-! ### Comparing a parsed literal with a rational table -/

/-- Are these literals exactly this list of numbers? -/
def numsEq : List PyLit → List ℚ → Bool
  | [], [] => true
  | PyLit.num q :: vs, x :: xs => q == x && numsEq vs xs
  | _, _ => false

/-- Are these literals exactly these rows of numbers? -/
def rowsEq : List PyLit → List (List ℚ) → Bool
  | [], [] => true
  | PyLit.list es :: vs, r :: rs => numsEq es r && rowsEq vs rs
  | _, _ => false

/-- Is this literal exactly this two-dimensional numeric table? -/
def tableEq (v : PyLit) (t : List (List ℚ)) : Bool :=
  match v with
  | PyLit.list rows => rowsEq rows t
  | _ => false

/-- Did the scraper return exactly this table? -/
def returnsTable (res : ScrapeResult) (t : List (List ℚ)) : Bool :=
  match res with
  | ScrapeResult.table v => tableEq v t
  | _ => false

/-! ### The outbound request (freeboard.py lines 114-140) -/

/-- One GET request as `requests.get` receives it: the URL, the payload
dictionary of freeboard.py lines 122-129 with `units` filled in at line
135, and the timeout of line 139. -/
structure Request where
  url : String
  lat : ℚ
  lon : ℚ
  type_ : String
  data : String
  units : String
  series : String
  timeout : Nat
deriving DecidableEq

/-- freeboard.py lines 131-135: `"inch"` selects the english unit system,
`"mm"` the metric one; any other string leaves `system` unbound and the
assignment on line 135 raises `NameError` before any request is made. -/
def unitSystem (units : String) : Option String :=
  if units = "inch" then some "english"
  else if units = "mm" then some "metric"
  else none

/-- The requests issued by one call of `scrape_precip_data`: exactly one
GET with the payload of lines 122-135, or none when the unit translation
already crashed. -/
def scrapeRequests (lat lon : ℚ) (units : String) : List Request :=
  match unitSystem units with
  | some sys => [⟨pfds_url, lat, lon, "pf", "depth", sys, "pds", 15⟩]
  | none => []

/-! ### The command surface (freeboard.py lines 60-111)

click's `FloatRange(min=a, max=b)` accepts exactly the closed interval
`[a, b]` and raises a usage error (the spec's InputRangeError) before the
command body — and hence before any network call — otherwise. -/

/-- `click.FloatRange(min=conus_south, max=conus_north)`,
freeboard.py line 68. -/
def validLat (lat : ℚ) : Prop :=
  conus_south ≤ lat ∧ lat ≤ conus_north

instance (lat : ℚ) : Decidable (validLat lat) := by
  unfold validLat
  exact instDecidableAnd

/-- `click.FloatRange(min=conus_west, max=conus_east)`,
freeboard.py line 69. -/
def validLon (lon : ℚ) : Prop :=
  conus_west ≤ lon ∧ lon ≤ conus_east

instance (lon : ℚ) : Decidable (validLon lon) := by
  unfold validLon
  exact instDecidableAnd

/-- The error click raises when an argument is outside its `FloatRange`. -/
inductive CliError where
  | inputRange (param : String) (value : ℚ)
deriving DecidableEq

/-- Argument validation in click's declaration order (lat, then lon),
freeboard.py lines 68-69. -/
def cli_check (lat lon : ℚ) : Except CliError Unit :=
  if validLat lat then
    if validLon lon then Except.ok ()
    else Except.error (CliError.inputRange "lon" lon)
  else Except.error (CliError.inputRange "lat" lat)

/-- The network calls one CLI invocation makes: none at all when argument
validation fails, otherwise whatever `scrape_precip_data` issues
(freeboard.py line 99). -/
def cliRequests (lat lon : ℚ) (units : String) : List Request :=
  match cli_check lat lon with
  | Except.ok _ => scrapeRequests lat lon units
  | Except.error _ => []

/-! ## Claims -/

/-- C1: for every table and every duration label and ARI label of the fixed
mappings whose mapped row and column indices are in range, the selection
returns exactly `table[row][col]`, with no arithmetic transformation. -/
theorem select_exact (α : Type) (table : List (List α)) (d a : String) (r c : Nat)
    (hd : duration_rows.lookup d = some r) (ha : ari_cols.lookup a = some c)
    (hr : r < table.length) (hc : c < (table.get ⟨r, hr⟩).length) :
    get_design_storm_event table a d = Except.ok ((table.get ⟨r, hr⟩).get ⟨c, hc⟩) :=
  select_ok table a d r c _ _ hd ha (List.get?_eq_get hr) (List.get?_eq_get hc)

/-- Witness for C1 at a concrete table: "10-min" is row 1, "2-yr" is
column 1, and the selection returns entry (1,1) of the table unchanged. -/
theorem select_exact_witness :
    get_design_storm_event [[(7 : ℚ), 8], [9, 10]] "2-yr" "10-min" = Except.ok 10 :=
  select_exact ℚ [[(7 : ℚ), 8], [9, 10]] "10-min" "2-yr" 1 1
    (by decide) (by decide) (by decide) (by decide)

/-- C2 (code_bug evidence): after a connection failure or timeout the code
does not fail with a typed NetworkError — it prints and falls through to an
`UnboundLocalError` crash; and after a non-2xx status it does not fail with
an HttpStatusError — it parses the error body, and returns a table whenever
that body happens to contain a `quantiles = ...;` fragment. -/
theorem fetch_http_failure_behavior :
    scrape_precip_data HttpOutcome.requestFailure = ScrapeResult.crash CrashKind.nameError
    ∧ returnsTable (scrape_precip_data
        (HttpOutcome.statusError 404 "quantiles = [[1,2]];")) [[1, 2]] = true :=
  ⟨rfl, rfl⟩

/-- C3 (code_bug evidence): a body without the `quantiles = ...;` fragment
makes the code crash with `AttributeError` (calling `.group(1)` on the
`None` returned by `re.search`), and a fragment whose captured text is not
a valid literal makes it crash with the error `ast.literal_eval` raises —
in neither case a dedicated MalformedResponseError. -/
theorem fetch_malformed_crash :
    scrape_precip_data (HttpOutcome.success "hello world")
        = ScrapeResult.crash CrashKind.attributeError
    ∧ scrape_precip_data (HttpOutcome.success "quantiles = [0, oops];")
        = ScrapeResult.crash CrashKind.valueError :=
  ⟨rfl, rfl⟩

/-- C4: a successful response whose body is exactly the fragment
`quantiles = [[1,2],[3,4]];` makes the fetch return the table
`[[1,2],[3,4]]` — extraction plus literal parsing round-trips the
embedded array literal. -/
theorem fetch_round_trip :
    returnsTable (scrape_precip_data
      (HttpOutcome.success "quantiles = [[1,2],[3,4]];")) [[1, 2], [3, 4]] = true :=
  rfl

/-- C5 counterexample: with the empty table, the unknown ARI label
`"bogus-yr"` does not produce an unknown-label failure — the row for
`"1-day"` is indexed before the ARI lookup, so the result is the
out-of-range failure `tableShape 9` (Python raises `IndexError`, not
`KeyError`). -/
theorem select_unknown_ari_cex :
    ari_cols.lookup "bogus-yr" = none
    ∧ get_design_storm_event ([] : List (List ℚ)) "bogus-yr" "1-day"
        = Except.error (IndexErr.tableShape 9) :=
  ⟨rfl, rfl⟩

/-- C5 as amended: an unknown duration label always fails with
`unknownLabel`; an unknown ARI label fails with `unknownLabel` provided the
duration's row is in range for the table (the row is indexed before the ARI
lookup, so a too-short table fails with `tableShape` first); and with any
unknown label the selection never returns a value. -/
theorem select_unknown_label (α : Type) (table : List (List α)) (a d : String) :
    (duration_rows.lookup d = none →
      get_design_storm_event table a d = Except.error (IndexErr.unknownLabel d))
    ∧ (∀ r row, duration_rows.lookup d = some r → table.get? r = some row →
        ari_cols.lookup a = none →
        get_design_storm_event table a d = Except.error (IndexErr.unknownLabel a))
    ∧ ((duration_rows.lookup d = none ∨ ari_cols.lookup a = none) →
        ∀ v, get_design_storm_event table a d ≠ Except.ok v) := by
  refine ⟨?_, ?_, ?_⟩
  · intro h
    unfold get_design_storm_event
    rw [lookupLabel_err h, error_bind]
  · intro r row hd hrow ha
    unfold get_design_storm_event
    rw [lookupLabel_ok hd, ok_bind, index_ok hrow, ok_bind, lookupLabel_err ha,
      error_bind]
  · intro h v
    unfold get_design_storm_event
    rcases h with h | h
    · rw [lookupLabel_err h, error_bind]
      exact fun hh => Except.noConfusion hh
    · rcases hd : duration_rows.lookup d with _ | r
      · rw [lookupLabel_err hd, error_bind]
        exact fun hh => Except.noConfusion hh
      · rw [lookupLabel_ok hd, ok_bind]
        rcases hrow : table.get? r with _ | row
        · rw [index_err hrow, error_bind]
          exact fun hh => Except.noConfusion hh
        · rw [index_ok hrow, ok_bind, lookupLabel_err h, error_bind]
          exact fun hh => Except.noConfusion hh

/-- Witness for the amended C5: `"24-hr"` is not a duration key, and the
selection reports it as the unknown label. -/
theorem select_unknown_label_witness :
    get_design_storm_event [[(3 : ℚ)]] "1-yr" "24-hr"
      = Except.error (IndexErr.unknownLabel "24-hr") :=
  (select_unknown_label ℚ [[(3 : ℚ)]] "1-yr" "24-hr").1 (by decide)

/-- C6: for every latitude and longitude, one invocation of the scraper
issues exactly one GET request, to the fixed PFDS endpoint, with payload
`{lat, lon, type="pf", data="depth", units, series="pds"}` and a 15-second
timeout, where `units` is `"english"` for the inch choice and `"metric"`
for the millimeter (`"mm"`) choice. -/
theorem scrape_request_params (lat lon : ℚ) :
    scrapeRequests lat lon "inch"
        = [⟨pfds_url, lat, lon, "pf", "depth", "english", "pds", 15⟩]
    ∧ scrapeRequests lat lon "mm"
        = [⟨pfds_url, lat, lon, "pf", "depth", "metric", "pds", 15⟩] :=
  ⟨rfl, rfl⟩

/-- Witness for C6 at a concrete coordinate. -/
theorem scrape_request_params_witness :
    scrapeRequests 39 (-105) "inch"
      = [⟨pfds_url, 39, -105, "pf", "depth", "english", "pds", 15⟩] :=
  (scrape_request_params 39 (-105)).1

/-- C7 counterexample: longitude -66.91 lies inside the accepted interval
`[-125, -66.9]` (it is west of the eastern bound, since -66.91 ≤ -66.9),
so the command surface accepts it and the network request goes out — the
claim that -66.91 is rejected before any network call is false. -/
theorem cli_lon_boundary_cex :
    cli_check 40 (-66.91) = Except.ok ()
    ∧ cliRequests 40 (-66.91) "inch"
        = [⟨pfds_url, 40, -66.91, "pf", "depth", "english", "pds", 15⟩] := by
  have hlat : validLat 40 := by norm_num [validLat, conus_south, conus_north]
  have hlon : validLon (-66.91) := by norm_num [validLon, conus_west, conus_east]
  constructor
  · unfold cli_check
    rw [if_pos hlat, if_pos hlon]
  · unfold cliRequests cli_check
    rw [if_pos hlat, if_pos hlon]
    rfl

/-- C7 as amended: the boundary coordinate (24.5, -66.9) is accepted;
latitude 24.49 (below the southern bound) and longitude -66.89 (past the
eastern bound, the value the claim's -66.91 misses) are rejected with a
range error, and a rejected invocation issues no network request. -/
theorem cli_coordinate_bounds :
    cli_check 24.5 (-66.9) = Except.ok ()
    ∧ cli_check 24.49 (-105) = Except.error (CliError.inputRange "lat" 24.49)
    ∧ cli_check 40 (-66.89) = Except.error (CliError.inputRange "lon" (-66.89))
    ∧ cliRequests 24.49 (-105) "inch" = []
    ∧ cliRequests 40 (-66.89) "inch" = [] := by
  have hlat1 : validLat 24.5 := by norm_num [validLat, conus_south, conus_north]
  have hlon1 : validLon (-66.9) := by norm_num [validLon, conus_west, conus_east]
  have hlat2 : ¬ validLat 24.49 := by norm_num [validLat, conus_south, conus_north]
  have hlon2 : ¬ validLon (-66.89) := by norm_num [validLon, conus_west, conus_east]
  have hlat3 : validLat 40 := by norm_num [validLat, conus_south, conus_north]
  refine ⟨?_, ?_, ?_, ?_, ?_⟩
  · unfold cli_check
    rw [if_pos hlat1, if_pos hlon1]
  · unfold cli_check
    rw [if_neg hlat2]
  · unfold cli_check
    rw [if_pos hlat3, if_neg hlon2]
  · unfold cliRequests cli_check
    rw [if_neg hlat2]
  · unfold cliRequests cli_check
    rw [if_pos hlat3, if_neg hlon2]

/-- C8: with both labels known, an out-of-range row index fails with
`tableShape row`, and an in-range row whose list is too short for the
column index fails with `tableShape col` — indexing is total and never
returns a value on a truncated table. -/
theorem select_table_shape (α : Type) (table : List (List α)) (a d : String)
    (r c : Nat)
    (hd : duration_rows.lookup d = some r) (ha : ari_cols.lookup a = some c) :
    (table.get? r = none →
      get_design_storm_event table a d = Except.error (IndexErr.tableShape r))
    ∧ (∀ row, table.get? r = some row → row.get? c = none →
      get_design_storm_event table a d = Except.error (IndexErr.tableShape c)) := by
  constructor
  · intro h
    unfold get_design_storm_event
    rw [lookupLabel_ok hd, ok_bind, index_err h, error_bind]
  · intro row hrow hc
    unfold get_design_storm_event
    rw [lookupLabel_ok hd, ok_bind, index_ok hrow, ok_bind, lookupLabel_ok ha,
      ok_bind, index_err hc]

/-- Witness for C8: a one-row table has no row 9 for `"1-day"`, and the
selection fails with `tableShape 9`. -/
theorem select_table_shape_witness :
    get_design_storm_event [[(2 : ℚ)]] "1-yr" "1-day"
      = Except.error (IndexErr.tableShape 9) :=
  (select_table_shape ℚ [[(2 : ℚ)]] "1-yr" "1-day" 9 0 (by decide) (by decide)).1
    (by decide)

/-- C9: the capture of `quantiles = (.*);` is greedy up to the last
semicolon of the line: on a body holding a second assignment after the
`quantiles` one, the well-formed fragment `quantiles = [[1,2]];` is present
as a leading substring, yet the captured text runs past the first `;`, the
parse does not yield `[[1,2]]`, and the scrape dies in `ast.literal_eval`. -/
theorem greedy_extraction :
    matchesAt "quantiles = [[1,2]];".toList
        "quantiles = [[1,2]]; upper = [[3,4]];".toList = true
    ∧ searchQuantiles "quantiles = [[1,2]]; upper = [[3,4]];".toList
        = some "[[1,2]]; upper = [[3,4]]".toList
    ∧ returnsTable (scrape_precip_data
        (HttpOutcome.success "quantiles = [[1,2]]; upper = [[3,4]];")) [[1, 2]]
        = false
    ∧ scrape_precip_data (HttpOutcome.success "quantiles = [[1,2]]; upper = [[3,4]];")
        = ScrapeResult.crash CrashKind.valueError :=
  ⟨rfl, rfl, rfl, rfl⟩

/-- C10: the duration dictionary has 19 keys; the eight sub-daily labels
occupy rows 0-7 and none of them is offered on the command line; the
day-scale labels start at row 8 with `"0.5-day"`, `"1-day"` sitting at
row 9; and the selection succeeds uniformly on any label of the dictionary
whenever the table is large enough. -/
theorem sub_daily_rows :
    (duration_rows.length = 19
      ∧ duration_rows.lookup "5-min" = some 0
      ∧ duration_rows.lookup "10-min" = some 1
      ∧ duration_rows.lookup "15-min" = some 2
      ∧ duration_rows.lookup "30-min" = some 3
      ∧ duration_rows.lookup "60-min" = some 4
      ∧ duration_rows.lookup "2-hr" = some 5
      ∧ duration_rows.lookup "3-hr" = some 6
      ∧ duration_rows.lookup "6-hr" = some 7
      ∧ duration_rows.lookup "0.5-day" = some 8
      ∧ duration_rows.lookup "1-day" = some 9
      ∧ "5-min" ∉ duration_choices ∧ "10-min" ∉ duration_choices
      ∧ "15-min" ∉ duration_choices ∧ "30-min" ∉ duration_choices
      ∧ "60-min" ∉ duration_choices ∧ "2-hr" ∉ duration_choices
      ∧ "3-hr" ∉ duration_choices ∧ "6-hr" ∉ duration_choices)
    ∧ (∀ (α : Type) (table : List (List α)) (a d : String) (r c : Nat)
        (row : List α) (v : α),
        duration_rows.lookup d = some r → ari_cols.lookup a = some c →
        table.get? r = some row → row.get? c = some v →
        get_design_storm_event table a d = Except.ok v) := by
  refine ⟨by decide, ?_⟩
  intro α table a d r c row v hd ha hrow hv
  exact select_ok table a d r c row v hd ha hrow hv

/-- Witness for C10: the sub-daily label `"5-min"` selects row 0 of a
one-row table just as a day-scale label would. -/
theorem sub_daily_rows_witness :
    get_design_storm_event [[(7 : ℚ)]] "1-yr" "5-min" = Except.ok 7 :=
  sub_daily_rows.2 ℚ [[(7 : ℚ)]] "1-yr" "5-min" 0 0 [(7 : ℚ)] 7
    (by decide) (by decide) rfl rfl

end Freeboard
